import Mathlib

/-!
Verification of the `Tokenizer` wrapper from `src/llama/tokenizer.py`
(a thin adapter around a SentencePiece subword model), by a shallow
embedding into Lean.

Modelling notes:
* The opaque `SentencePieceProcessor` handle is embedded as a structure
  `SPModel` of the attributes the wrapper consumes: `vocab_size`,
  `get_piece_size`, the four reserved IDs, and the native `sp_encode` /
  `sp_decode` procedures (which may fail with a library-level error).
* Python exceptions are embedded as the inductive `PyErr`.  The spec's
  abstract error taxonomy maps onto the exceptions the code raises as:
  NotFound = `fileNotFoundError`, TypeMismatch = `assertionError` (the
  `assert isinstance` guard), EncodingFailure = `valueError` (the
  `raise ValueError(...)` wrapper, whose implicit exception context
  carries the original error), NotInitialized = `attributeError` (the
  access of an attribute never set by `__init__`).
* A `Tokenizer` instance is a record of possibly-unset attributes
  (`Option` fields); a default-constructed instance has every field
  unset, mirroring that `__init__(None)` assigns nothing.
* `encode` is translated statement by statement as `encodeSt`, which
  threads the instance state explicitly and also records the inputs on
  which the model's native encoding procedure was invoked, so that "no
  model call occurs" and "no field is modified" are statable.
-/

/-- A Python exception value, restricted to the exception shapes that the
tokenizer module can raise or propagate.  `valueError` carries the message
and the implicit exception context (`__context__`) set when raising inside
an `except` block.  `libraryError` stands for an arbitrary exception raised
by the third-party model. -/
inductive PyErr where
  | fileNotFoundError (msg : String)
  | assertionError (msg : String)
  | valueError (msg : String) (context : PyErr)
  | attributeError (msg : String)
  | libraryError (msg : String)
  deriving DecidableEq, Repr

/-- Embedding of `str(e)` for the embedded exceptions: the message. -/
def pyErrStr : PyErr → String
  | .fileNotFoundError m => m
  | .assertionError m => m
  | .valueError m _ => m
  | .attributeError m => m
  | .libraryError m => m

/-- The loaded SentencePiece model handle: the attributes and methods the
wrapper consumes.  `sp_encode` and `sp_decode` are the native encoding and
decoding procedures; either may fail with a library exception. -/
structure SPModel where
  vocab_size : Int
  get_piece_size : Int
  bos_id : Int
  eos_id : Int
  pad_id : Int
  unk_id : Int
  sp_encode : String → Except PyErr (List Int)
  sp_decode : List Int → Except PyErr String

/-- A `Tokenizer` instance: each Python attribute is `Option`al because a
default-constructed instance (`model_path=None`) never assigns them. -/
structure Tokenizer where
  sp_model : Option SPModel
  n_words : Option Int
  bos_id : Option Int
  eos_id : Option Int
  pad_id : Option Int
  unk_id : Option Int

/-- A Python value passed as the `s` argument of `encode`: either a string
or some non-string value (identified only by its repr). -/
inductive PyValue where
  | str (s : String)
  | nonStr (r : String)
  deriving DecidableEq, Repr

/-- Embedding of `isinstance(s, str)`. -/
def PyValue.isStr : PyValue → Bool
  | .str _ => true
  | .nonStr _ => false

/-- The message of the `AttributeError` raised when reading an attribute
`__init__` never set. -/
def attrErrMsg (name : String) : String :=
  "Tokenizer object has no attribute " ++ name

/-- Reading an attribute of the instance: an unset attribute raises
`AttributeError`. -/
def getAttr (field : Option Int) (name : String) : Except PyErr Int :=
  match field with
  | some v => .ok v
  | none => .error (.attributeError (attrErrMsg name))

/-- The default-constructed (Uninitialized) instance: `__init__(None)`
assigns no attribute. -/
def Tokenizer.uninitialized : Tokenizer :=
  { sp_model := none, n_words := none, bos_id := none, eos_id := none,
    pad_id := none, unk_id := none }

/-- Embedding of `Tokenizer.__init__`, with the file system as a predicate
`fs` (`os.path.isfile`) and the model loader as a function `load`
(`SentencePieceProcessor(model_file=path)`).  Mirrors the source: with no
path, nothing is assigned; with a path, a missing file raises
`FileNotFoundError` naming the path before anything is assigned; otherwise
the model is loaded, the vocabulary size and the four reserved IDs are
recorded, and the load-time assertion
`vocab_size() == get_piece_size()` is checked. -/
def Tokenizer.init (fs : String → Bool) (load : String → SPModel) :
    Option String → Except PyErr Tokenizer
  | none => .ok Tokenizer.uninitialized
  | some path =>
    if fs path then
      let m := load path
      let self : Tokenizer :=
        { sp_model := some m, n_words := some m.vocab_size,
          bos_id := some m.bos_id, eos_id := some m.eos_id,
          pad_id := some m.pad_id, unk_id := some m.unk_id }
      if m.vocab_size = m.get_piece_size then .ok self
      else .error (.assertionError "")
    else .error (.fileNotFoundError ("Model file not found: " ++ path))

/-- The result of a call to `encode`: the value returned or the exception
raised, the instance state after the call, and the list of inputs on which
`self.sp_model.encode` was actually invoked. -/
structure EncodeOutcome where
  result : Except PyErr (List Int)
  state : Tokenizer
  modelCalls : List String

/-- Embedding of `Tokenizer.encode`, translated statement by statement.
Source order: (1) `assert isinstance(s, str)`; (2) inside `try`,
`t = self.sp_model.encode(s)` — an exception here (including the
`AttributeError` when `sp_model` is unset) is caught and re-raised as
`ValueError("Error during tokenization: " + str(e))` with the original
exception as implicit context; (3) the clamp
`t = [tok if tok in range(self.n_words) else self.unk_id for tok in t]`;
(4) `if bos: t = [self.bos_id] + t`; (5) `if eos: t = t + [self.eos_id]`.
No statement assigns to `self`, so the state is threaded unchanged. -/
def Tokenizer.encodeSt (self : Tokenizer) (s : PyValue) (bos eos : Bool) :
    EncodeOutcome :=
  match s with
  | .nonStr _ =>
    { result := .error (.assertionError "Input s must be a string"),
      state := self, modelCalls := [] }
  | .str str =>
    match self.sp_model with
    | none =>
      let e : PyErr := .attributeError (attrErrMsg "sp_model")
      { result := .error (.valueError
          ("Error during tokenization: " ++ pyErrStr e) e),
        state := self, modelCalls := [] }
    | some m =>
      match m.sp_encode str with
      | .error e =>
        { result := .error (.valueError
            ("Error during tokenization: " ++ pyErrStr e) e),
          state := self, modelCalls := [str] }
      | .ok t0 =>
        let body : Except PyErr (List Int) := do
          let n ← getAttr self.n_words "n_words"
          let unk ← getAttr self.unk_id "unk_id"
          let t1 := t0.map (fun tok =>
            if 0 ≤ tok ∧ tok < n then tok else unk)
          let t2 ← if bos then do
              let b ← getAttr self.bos_id "bos_id"
              pure (b :: t1)
            else pure t1
          let t3 ← if eos then do
              let ev ← getAttr self.eos_id "eos_id"
              pure (t2 ++ [ev])
            else pure t2
          pure t3
        { result := body, state := self, modelCalls := [str] }

/-- The value/exception of `encode` alone. -/
def Tokenizer.encode (self : Tokenizer) (s : PyValue) (bos eos : Bool) :
    Except PyErr (List Int) :=
  (self.encodeSt s bos eos).result

/-- Embedding of `Tokenizer.decode`, with threaded state:
`return self.sp_model.decode(t)`.
The delegate's result — text or exception — is returned unchanged. -/
def Tokenizer.decodeSt (self : Tokenizer) (t : List Int) :
    (Except PyErr String) × Tokenizer :=
  match self.sp_model with
  | none => (.error (.attributeError (attrErrMsg "sp_model")), self)
  | some m => (m.sp_decode t, self)

/-- The value/exception of `decode` alone. -/
def Tokenizer.decode (self : Tokenizer) (t : List Int) :
    Except PyErr String :=
  (self.decodeSt t).1

/-- The Ready state produced by a successful construction from model `m`. -/
def Tokenizer.mkReady (m : SPModel) : Tokenizer :=
  { sp_model := some m, n_words := some m.vocab_size,
    bos_id := some m.bos_id, eos_id := some m.eos_id,
    pad_id := some m.pad_id, unk_id := some m.unk_id }

/-- Whether an exception is the NotInitialized shape (the missing-attribute
exception of an instance `__init__` never populated). -/
def PyErr.isNotInitialized : PyErr → Bool
  | .attributeError _ => true
  | _ => false

/-- A concrete model used for counterexamples and witnesses: vocabulary
size 5, BOS = 7 (out of range), EOS = 2, UNK = 0; native encoding maps
every string to the empty raw sequence. -/
def cexModel : SPModel :=
  { vocab_size := 5, get_piece_size := 5, bos_id := 7, eos_id := 2,
    pad_id := -1, unk_id := 0,
    sp_encode := fun _ => .ok [],
    sp_decode := fun _ => .ok "" }

/-- A concrete well-behaved model: vocabulary size 100, BOS = 1, EOS = 2,
UNK = 0; native encoding maps every string to `[45, 46, 300]` (the raw ID
300 is out of range). -/
def stubModel : SPModel :=
  { vocab_size := 100, get_piece_size := 100, bos_id := 1, eos_id := 2,
    pad_id := -1, unk_id := 0,
    sp_encode := fun _ => .ok [45, 46, 300],
    sp_decode := fun _ => .ok "hi" }

/-- A concrete model whose native encoding always raises. -/
def failModel : SPModel :=
  { vocab_size := 100, get_piece_size := 100, bos_id := 1, eos_id := 2,
    pad_id := -1, unk_id := 0,
    sp_encode := fun _ => .error (.libraryError "boom"),
    sp_decode := fun _ => .error (.libraryError "bad id") }

/-- Normal form of `encode` on a Ready instance: the model error is wrapped
as a `ValueError`, and on success the raw sequence is clamped, then BOS is
prepended and EOS appended as requested. -/
theorem encode_mkReady_eq (m : SPModel) (s : String) (bos eos : Bool) :
    (Tokenizer.mkReady m).encode (.str s) bos eos =
      match m.sp_encode s with
      | .error e => .error (.valueError
          ("Error during tokenization: " ++ pyErrStr e) e)
      | .ok t0 =>
          let t1 := t0.map (fun tok =>
            if 0 ≤ tok ∧ tok < m.vocab_size then tok else m.unk_id)
          let t2 := if bos then m.bos_id :: t1 else t1
          .ok (if eos then t2 ++ [m.eos_id] else t2) := by
  cases h : m.sp_encode s with
  | error e =>
    simp [Tokenizer.encode, Tokenizer.encodeSt, Tokenizer.mkReady, h]
  | ok t0 =>
    cases bos <;> cases eos <;>
      simp [Tokenizer.encode, Tokenizer.encodeSt, Tokenizer.mkReady, h,
        getAttr, Except.bind] <;> rfl

/-- C2: on a Ready tokenizer, Encode(s, true, false) is [BOS] followed by
Encode(s, false, false); Encode(s, false, true) is Encode(s, false, false)
followed by [EOS]; Encode(s, true, true) is [BOS], then
Encode(s, false, false), then [EOS]. -/
theorem encode_bos_eos_concat (m : SPModel) (s : String) (t : List Int)
    (h : (Tokenizer.mkReady m).encode (.str s) false false = .ok t) :
    (Tokenizer.mkReady m).encode (.str s) true false = .ok (m.bos_id :: t) ∧
    (Tokenizer.mkReady m).encode (.str s) false true =
      .ok (t ++ [m.eos_id]) ∧
    (Tokenizer.mkReady m).encode (.str s) true true =
      .ok (m.bos_id :: (t ++ [m.eos_id])) := by
  rw [encode_mkReady_eq] at h
  rw [encode_mkReady_eq, encode_mkReady_eq, encode_mkReady_eq]
  cases hr : m.sp_encode s with
  | error e => rw [hr] at h; exact absurd h (by simp)
  | ok t0 =>
    rw [hr] at h
    simp only [Except.ok.injEq] at h
    subst h
    simp

theorem encode_bos_eos_concat_witness :
    (Tokenizer.mkReady stubModel).encode (.str "hi") true false =
      .ok [1, 45, 46, 0] ∧
    (Tokenizer.mkReady stubModel).encode (.str "hi") false true =
      .ok [45, 46, 0, 2] ∧
    (Tokenizer.mkReady stubModel).encode (.str "hi") true true =
      .ok [1, 45, 46, 0, 2] :=
  encode_bos_eos_concat stubModel "hi" [45, 46, 0] rfl

/-- C3: when the underlying model's encoding procedure fails with `e`,
Encode raises a `ValueError` (the EncodingFailure of the spec) whose
message and exception context carry `e`; the caller never sees `e` raw. -/
theorem encode_wraps_model_error (m : SPModel) (s : String) (bos eos : Bool)
    (e : PyErr) (h : m.sp_encode s = .error e) :
    (Tokenizer.mkReady m).encode (.str s) bos eos =
      .error (.valueError ("Error during tokenization: " ++ pyErrStr e) e) := by
  rw [encode_mkReady_eq, h]

theorem encode_wraps_model_error_witness :
    (Tokenizer.mkReady failModel).encode (.str "x") false false =
      .error (.valueError ("Error during tokenization: " ++ "boom")
        (.libraryError "boom")) :=
  encode_wraps_model_error failModel "x" false false (.libraryError "boom") rfl

/-- C4: Decode on a Ready tokenizer delegates to the model's native
decoding procedure and returns its outcome unchanged: the text on success,
and the model's own error, unwrapped, on failure. -/
theorem decode_delegates_unchanged (m : SPModel) (t : List Int) :
    (Tokenizer.mkReady m).decode t = m.sp_decode t := rfl

/-- C5: Encode applied to a non-string value fails with the
`AssertionError` of the `isinstance` guard (the TypeMismatch of the spec),
and the model's native encoding procedure is never invoked, on any
instance whatsoever. -/
theorem encode_nonstring_rejected_before_model_call (tok : Tokenizer)
    (v : PyValue) (bos eos : Bool) (h : v.isStr = false) :
    (tok.encodeSt v bos eos).result =
      .error (.assertionError "Input s must be a string") ∧
    (tok.encodeSt v bos eos).modelCalls = [] := by
  cases v with
  | str s => exact absurd h (by simp [PyValue.isStr])
  | nonStr r => exact ⟨rfl, rfl⟩

theorem encode_nonstring_rejected_before_model_call_witness :
    ((Tokenizer.mkReady stubModel).encodeSt (.nonStr "42") true true).result =
      .error (.assertionError "Input s must be a string") ∧
    ((Tokenizer.mkReady stubModel).encodeSt
        (.nonStr "42") true true).modelCalls = [] :=
  encode_nonstring_rejected_before_model_call (Tokenizer.mkReady stubModel)
    (.nonStr "42") true true rfl

/-- C9: neither Encode nor Decode modifies any field of the instance:
the state after either call is the state before it, on every instance,
every input and every outcome. -/
theorem encode_decode_leave_state_unchanged (tok : Tokenizer) (s : PyValue)
    (bos eos : Bool) (t : List Int) :
    (tok.encodeSt s bos eos).state = tok ∧ (tok.decodeSt t).2 = tok := by
  constructor
  · cases s with
    | nonStr r => rfl
    | str str =>
      cases hm : tok.sp_model with
      | none => simp [Tokenizer.encodeSt, hm]
      | some m =>
        cases he : m.sp_encode str <;> simp [Tokenizer.encodeSt, hm, he]
  · cases hm : tok.sp_model <;> simp [Tokenizer.decodeSt, hm]

/-- Every member of a clamped sequence lies in [0, vocabulary size)
provided the unknown ID does. -/
theorem clamped_mem_range (m : SPModel) (t0 : List Int) (id : Int)
    (hunk : 0 ≤ m.unk_id ∧ m.unk_id < m.vocab_size)
    (hmem : id ∈ t0.map (fun tok =>
      if 0 ≤ tok ∧ tok < m.vocab_size then tok else m.unk_id)) :
    0 ≤ id ∧ id < m.vocab_size := by
  simp only [List.mem_map] at hmem
  obtain ⟨tok, _, hf⟩ := hmem
  by_cases hcond : 0 ≤ tok ∧ tok < m.vocab_size
  · rw [if_pos hcond] at hf
    exact hf ▸ hcond
  · rw [if_neg hcond] at hf
    exact hf ▸ hunk

/-- C1 counterexample: with a model whose BOS ID (7) lies outside
[0, vocabulary size) = [0, 5), Encode(s, true, false) returns the
out-of-range ID 7 — the reserved IDs are prepended/appended after the
clamp and are not themselves clamped, so the claim fails as stated. -/
theorem encode_out_of_range_bos_escapes_clamp :
    Tokenizer.init (fun _ => true) (fun _ => cexModel) (some "m.model") =
      .ok (Tokenizer.mkReady cexModel) ∧
    (Tokenizer.mkReady cexModel).encode (.str "") true false = .ok [7] ∧
    cexModel.vocab_size = 5 ∧ ¬ (0 ≤ (7 : Int) ∧ (7 : Int) < 5) :=
  ⟨by simp [Tokenizer.init, cexModel, Tokenizer.mkReady], rfl, rfl, by decide⟩

/-- C1 (amended): provided the model declares its unknown, BOS and EOS IDs
inside [0, vocabulary size), every ID returned by Encode(s, *, *) lies in
[0, vocabulary size): every out-of-range raw ID is replaced by the unknown
ID, and the reserved IDs are in range by hypothesis. -/
theorem encode_ids_in_range (m : SPModel) (s : String) (bos eos : Bool)
    (ids : List Int) (id : Int)
    (hunk : 0 ≤ m.unk_id ∧ m.unk_id < m.vocab_size)
    (hbos : 0 ≤ m.bos_id ∧ m.bos_id < m.vocab_size)
    (heos : 0 ≤ m.eos_id ∧ m.eos_id < m.vocab_size)
    (hok : (Tokenizer.mkReady m).encode (.str s) bos eos = .ok ids)
    (hmem : id ∈ ids) :
    0 ≤ id ∧ id < m.vocab_size := by
  rw [encode_mkReady_eq] at hok
  cases hr : m.sp_encode s with
  | error e =>
    rw [hr] at hok
    exact absurd hok (by simp)
  | ok t0 =>
    rw [hr] at hok
    simp only [Except.ok.injEq] at hok
    subst hok
    have key : id = m.bos_id ∨ id = m.eos_id ∨
        id ∈ t0.map (fun tok =>
          if 0 ≤ tok ∧ tok < m.vocab_size then tok else m.unk_id) := by
      cases bos <;> cases eos <;> simp [-List.mem_map] at hmem <;> tauto
    rcases key with h | h | h
    · exact h ▸ hbos
    · exact h ▸ heos
    · exact clamped_mem_range m t0 id hunk h

theorem encode_ids_in_range_witness :
    0 ≤ (0 : Int) ∧ (0 : Int) < stubModel.vocab_size :=
  encode_ids_in_range stubModel "hi" true true [1, 45, 46, 0, 2] 0
    (by decide) (by decide) (by decide) rfl (by decide)

/-- C6: constructing with a path that is not an existing file fails with
`FileNotFoundError` naming the missing path; construction returns the
exception rather than an instance, so no partial state is retained. -/
theorem init_missing_file_notFound (fs : String → Bool)
    (load : String → SPModel) (path : String) (h : fs path = false) :
    Tokenizer.init fs load (some path) =
      .error (.fileNotFoundError ("Model file not found: " ++ path)) := by
  simp [Tokenizer.init, h]

theorem init_missing_file_notFound_witness :
    Tokenizer.init (fun _ => false) (fun _ => stubModel) (some "tok.model") =
      .error (.fileNotFoundError
        ("Model file not found: " ++ "tok.model")) :=
  init_missing_file_notFound (fun _ => false) (fun _ => stubModel)
    "tok.model" rfl

/-- C7 counterexample: on the default-constructed instance, Encode("hi")
raises the `ValueError` wrapper (the EncodingFailure shape) around the
missing-attribute exception — not the NotInitialized (missing-attribute)
shape itself — so the claim fails as stated for Encode. -/
theorem uninitialized_encode_error_not_notInitialized :
    Tokenizer.uninitialized.encode (.str "hi") false false =
      .error (.valueError
        ("Error during tokenization: " ++ attrErrMsg "sp_model")
        (.attributeError (attrErrMsg "sp_model"))) ∧
    PyErr.isNotInitialized
      (.valueError ("Error during tokenization: " ++ attrErrMsg "sp_model")
        (.attributeError (attrErrMsg "sp_model"))) = false :=
  ⟨rfl, rfl⟩

/-- C7 (amended): on an Uninitialized tokenizer no token operation
succeeds: Encode fails with the EncodingFailure (`ValueError`) wrapper
whose context is the NotInitialized missing-attribute exception, and
Decode fails with the NotInitialized missing-attribute exception
directly. -/
theorem uninitialized_ops_fail (fs : String → Bool)
    (load : String → SPModel) (s : String) (bos eos : Bool)
    (t : List Int) :
    Tokenizer.init fs load none = .ok Tokenizer.uninitialized ∧
    Tokenizer.uninitialized.encode (.str s) bos eos =
      .error (.valueError
        ("Error during tokenization: " ++ attrErrMsg "sp_model")
        (.attributeError (attrErrMsg "sp_model"))) ∧
    Tokenizer.uninitialized.decode t =
      .error (.attributeError (attrErrMsg "sp_model")) ∧
    PyErr.isNotInitialized (.attributeError (attrErrMsg "sp_model")) =
      true :=
  ⟨rfl, rfl, rfl, rfl⟩

/-- C8: when the path exists and the model handle satisfies its
postcondition `vocab_size() == get_piece_size()`, the load-time assertion
passes — construction succeeds — and the recorded vocabulary size equals
the model's reported piece count. -/
theorem init_records_piece_size (fs : String → Bool)
    (load : String → SPModel) (path : String)
    (hfs : fs path = true)
    (hpost : (load path).vocab_size = (load path).get_piece_size) :
    Tokenizer.init fs load (some path) =
      .ok (Tokenizer.mkReady (load path)) ∧
    (Tokenizer.mkReady (load path)).n_words =
      some ((load path).get_piece_size) := by
  constructor
  · simp [Tokenizer.init, hfs, hpost, Tokenizer.mkReady]
  · simp [Tokenizer.mkReady, hpost]

theorem init_records_piece_size_witness :
    Tokenizer.init (fun _ => true) (fun _ => stubModel) (some "t.model") =
      .ok (Tokenizer.mkReady stubModel) ∧
    (Tokenizer.mkReady stubModel).n_words =
      some stubModel.get_piece_size :=
  init_records_piece_size (fun _ => true) (fun _ => stubModel)
    "t.model" rfl rfl

/-- C10: the defensive clamp preserves length and position: on raw model
output `raw`, Encode(s, false, false) returns a sequence of the same
length whose ID at each position is the raw ID there when it lies in
[0, vocabulary size) and the unknown ID otherwise — nothing is dropped,
inserted or reordered. -/
theorem clamp_preserves_length_and_positions (m : SPModel) (s : String)
    (raw ids : List Int)
    (hraw : m.sp_encode s = .ok raw)
    (hok : (Tokenizer.mkReady m).encode (.str s) false false = .ok ids) :
    ids.length = raw.length ∧
    ∀ (i : Nat) (tok : Int), raw[i]? = some tok →
      ids[i]? = some (if 0 ≤ tok ∧ tok < m.vocab_size
        then tok else m.unk_id) := by
  rw [encode_mkReady_eq, hraw] at hok
  simp only [Bool.false_eq_true, if_false, Except.ok.injEq] at hok
  subst hok
  refine ⟨List.length_map _ _, ?_⟩
  intro i tok htok
  rw [List.getElem?_map, htok]
  rfl

theorem clamp_preserves_length_and_positions_witness :
    ([45, 46, 0] : List Int).length = ([45, 46, 300] : List Int).length ∧
    ([45, 46, 0] : List Int)[2]? =
      some (if 0 ≤ (300 : Int) ∧ (300 : Int) < stubModel.vocab_size
        then (300 : Int) else stubModel.unk_id) :=
  ⟨(clamp_preserves_length_and_positions stubModel "z"
      [45, 46, 300] [45, 46, 0] rfl rfl).1,
   (clamp_preserves_length_and_positions stubModel "z"
      [45, 46, 300] [45, 46, 0] rfl rfl).2 2 300 rfl⟩
